import Mathlib

/-!
Verification of the items-api Lambda handler (`src/post-apps/items-api/app.ts`).

The handler is embedded shallowly:
* JavaScript runtime values that can arise from `JSON.parse`, from property
  assignment, and from `throw` are modelled by the inductive type `JsVal`.
  Arrays carry, besides their elements, the list of non-index own properties
  that later assignments (`body.id = ...`, `body.createdAt = ...`) may add.
* `JSON.parse` and `JSON.stringify` are modelled by executable functions
  `jsonParse` / `JsVal.stringify` following ECMA-404 / ECMA-262 (the JSON
  grammar, escape handling, and the fact that `JSON.stringify` serializes an
  array by its index elements only, dropping other own properties).  Numbers
  are kept as their source lexeme; no property proved here depends on
  JavaScript float normalization.
* Effects are passed explicitly: `uuid` stands for the value returned by
  `crypto.randomUUID()`, `now` for `new Date().toISOString()`, and the two
  DynamoDB calls are parameters: `put` maps the record passed as the
  `PutCommand`'s `Item` to the outcome of `dynamodb.send`, and `get` maps
  the id in the `GetCommand`'s `Key` to the outcome (either a thrown value
  or the call's result).
* Thrown exceptions are the `Except.error` branch of `Except JsVal _`.
  The compiled module is strict-mode JavaScript (`"use strict"` in `app.js`),
  so property assignment on a primitive throws a `TypeError`; likewise
  `Object.keys(null)` throws a `TypeError`.  Both are modelled faithfully.
-/

namespace ItemsApi

/-- A JavaScript runtime value as it can appear in the handler: the result of
`JSON.parse`, a value thrown by the SDK or the runtime, or a stored record.
`arr elems props` is an array with index elements `elems` and additional
non-index own properties `props` (added by later property assignment);
`JSON.parse` itself always produces arrays with `props = []`. -/
inductive JsVal where
  | undefined
  | null
  | bool (b : Bool)
  | num (lit : String)
  | str (s : String)
  | arr (elems : List JsVal) (props : List (String × JsVal))
  | obj (fields : List (String × JsVal))

instance : Inhabited JsVal := ⟨.undefined⟩

/-- Look up key `k` in an association list of own properties. -/
def lookupField (l : List (String × JsVal)) (k : String) : Option JsVal :=
  match l with
  | [] => none
  | (k', v) :: rest => if k' = k then some v else lookupField rest k

/-- Set key `k` to `v`: an existing key keeps its position, a new key is
appended — JavaScript's own-property insertion order for string keys. -/
def listSet (l : List (String × JsVal)) (k : String) (v : JsVal) : List (String × JsVal) :=
  match l with
  | [] => [(k, v)]
  | (k', v') :: rest => if k' = k then (k', v) :: rest else (k', v') :: listSet rest k v

/-- Property read `v[k]` for the non-index keys the handler uses
(`"id"`, `"name"`, `"createdAt"`): an absent property reads as `undefined`,
and a property read on a primitive (e.g. `"abc".id`) is `undefined`. -/
def JsVal.getProp (v : JsVal) (k : String) : JsVal :=
  match v with
  | .obj fs => (lookupField fs k).getD .undefined
  | .arr _ ps => (lookupField ps k).getD .undefined
  | _ => .undefined

/-- A `TypeError` as thrown by the runtime: an object whose `name` own
property is the string `"TypeError"`. -/
def typeError (message : String) : JsVal :=
  .obj [("name", .str "TypeError"), ("message", .str message)]

/-- Property assignment `v[k] = x` for a non-index key.  On an object or an
array it sets the own property; on a primitive or `null`/`undefined` it
throws a `TypeError` (the compiled module is strict mode). -/
def JsVal.setProp (v : JsVal) (k : String) (x : JsVal) : Except JsVal JsVal :=
  match v with
  | .obj fs => .ok (.obj (listSet fs k x))
  | .arr es ps => .ok (.arr es (listSet ps k x))
  | _ => .error (typeError ("Cannot create property " ++ k))

/-- The UTF-16 length of a character: JavaScript strings are measured in
UTF-16 code units, so astral code points count as 2. -/
def utf16Length (c : Char) : Nat :=
  if c.toNat < 0x10000 then 1 else 2

/-- JavaScript `String#length` (UTF-16 code units). -/
def jsLength (s : String) : Nat :=
  (s.data.map utf16Length).sum

/-- Characters removed by `String#trim`: the `WhiteSpace` and
`LineTerminator` productions of ECMA-262 (ASCII whitespace, NBSP, the
Unicode `Zs` category, LS, PS, ZWNBSP). -/
def jsWhitespaceChar (c : Char) : Bool :=
  c == ' ' || c == '\t' || c == '\n' || c == '\r' || c == '\x0b' || c == '\x0c' ||
  c == '\u00A0' || c == '\u1680' || (0x2000 ≤ c.toNat && c.toNat ≤ 0x200A) ||
  c == '\u2028' || c == '\u2029' || c == '\u202F' || c == '\u205F' ||
  c == '\u3000' || c == '\uFEFF'

/-- JavaScript `String#trim`: strip leading and trailing whitespace. -/
def jsTrim (s : String) : String :=
  String.mk (((s.data.dropWhile jsWhitespaceChar).reverse.dropWhile jsWhitespaceChar).reverse)

/-- `Object.keys`.  Returns `none` when the call throws (`null`/`undefined`
arguments throw a `TypeError`); other primitives are coerced to objects
(booleans and numbers have no own enumerable keys, a string's own keys are
its UTF-16 indices).  For arrays the own enumerable keys are the index keys
followed by the added properties; for objects, the field names. -/
def JsVal.objectKeys (v : JsVal) : Option (List String) :=
  match v with
  | .undefined => none
  | .null => none
  | .bool _ => some []
  | .num _ => some []
  | .str s => some ((List.range (jsLength s)).map toString)
  | .arr es ps => some ((List.range es.length).map toString ++ ps.map (fun p => p.1))
  | .obj fs => some (fs.map (fun p => p.1))

/-! JSON serialization, following ECMA-262 `JSON.stringify` on the values
`JsVal` can hold.  Strings are quoted with the standard escapes; an array is
serialized by its index elements only — its extra own properties are
dropped; `undefined` cannot occur inside values built by this development's
reachable paths. -/

/-- Lower-case hexadecimal digit for `n < 16`. -/
def hexDigit (n : Nat) : Char :=
  if n < 10 then Char.ofNat (48 + n) else Char.ofNat (87 + n)

/-- Escape one character as inside a JSON string literal. -/
def escapeChar (c : Char) : String :=
  if c = '"' then "\\\""
  else if c = '\\' then "\\\\"
  else if c = '\x08' then "\\b"
  else if c = '\x0c' then "\\f"
  else if c = '\n' then "\\n"
  else if c = '\r' then "\\r"
  else if c = '\t' then "\\t"
  else if c.toNat < 32 then
    "\\u00" ++ String.mk [hexDigit (c.toNat / 16), hexDigit (c.toNat % 16)]
  else String.mk [c]

/-- Quote a string as a JSON string literal. -/
def jsonQuote (s : String) : String :=
  "\"" ++ String.join (s.data.map escapeChar) ++ "\""

mutual

/-- `JSON.stringify` on a runtime value.  An array's non-index own
properties are not serialized. -/
def JsVal.stringify : JsVal → String
  | .undefined => "null"
  | .null => "null"
  | .bool true => "true"
  | .bool false => "false"
  | .num lit => lit
  | .str s => jsonQuote s
  | .arr es _ => "[" ++ stringifyElems es ++ "]"
  | .obj fs => "\x7b" ++ stringifyFields fs ++ "\x7d"

/-- Comma-separated serialization of array elements. -/
def stringifyElems : List JsVal → String
  | [] => ""
  | [x] => x.stringify
  | x :: y :: xs => x.stringify ++ "," ++ stringifyElems (y :: xs)

/-- Comma-separated serialization of object fields. -/
def stringifyFields : List (String × JsVal) → String
  | [] => ""
  | [(k, v)] => jsonQuote k ++ ":" ++ v.stringify
  | (k, v) :: y :: xs => jsonQuote k ++ ":" ++ v.stringify ++ "," ++ stringifyFields (y :: xs)

end

/-! JSON parsing, following the ECMA-404 grammar used by `JSON.parse`. -/

/-- JSON insignificant whitespace: space, tab, line feed, carriage return. -/
def jsonWs (c : Char) : Bool :=
  c == ' ' || c == '\t' || c == '\n' || c == '\r'

/-- Drop leading JSON whitespace. -/
def skipWs : List Char → List Char
  | [] => []
  | c :: cs => if jsonWs c then skipWs cs else c :: cs

/-- Hexadecimal digit value. -/
def hexVal (c : Char) : Option Nat :=
  if '0' ≤ c ∧ c ≤ '9' then some (c.toNat - 48)
  else if 'a' ≤ c ∧ c ≤ 'f' then some (c.toNat - 87)
  else if 'A' ≤ c ∧ c ≤ 'F' then some (c.toNat - 55)
  else none

/-- Body of a JSON string literal, after the opening quote: `acc` holds the
characters read so far, reversed.  Raw control characters are rejected; the
escapes are the nine of ECMA-404 plus `\uXXXX`, with surrogate pairs
combined into one code point.  (A lone surrogate, which JavaScript strings
could hold, is not representable as a `Char` and is rejected; no claim
involves one.) -/
def parseStringAux (acc : List Char) : List Char → Option (String × List Char)
  | [] => none
  | '"' :: rest => some (String.mk acc.reverse, rest)
  | '\\' :: '"' :: rest => parseStringAux ('"' :: acc) rest
  | '\\' :: '\\' :: rest => parseStringAux ('\\' :: acc) rest
  | '\\' :: '/' :: rest => parseStringAux ('/' :: acc) rest
  | '\\' :: 'b' :: rest => parseStringAux ('\x08' :: acc) rest
  | '\\' :: 'f' :: rest => parseStringAux ('\x0c' :: acc) rest
  | '\\' :: 'n' :: rest => parseStringAux ('\n' :: acc) rest
  | '\\' :: 'r' :: rest => parseStringAux ('\r' :: acc) rest
  | '\\' :: 't' :: rest => parseStringAux ('\t' :: acc) rest
  | '\\' :: 'u' :: h1 :: h2 :: h3 :: h4 :: rest =>
    match hexVal h1, hexVal h2, hexVal h3, hexVal h4 with
    | some a, some b, some c, some d =>
      let code := ((a * 16 + b) * 16 + c) * 16 + d
      if 0xD800 ≤ code ∧ code ≤ 0xDBFF then
        match rest with
        | '\\' :: 'u' :: g1 :: g2 :: g3 :: g4 :: rest2 =>
          match hexVal g1, hexVal g2, hexVal g3, hexVal g4 with
          | some a2, some b2, some c2, some d2 =>
            let low := ((a2 * 16 + b2) * 16 + c2) * 16 + d2
            if 0xDC00 ≤ low ∧ low ≤ 0xDFFF then
              parseStringAux
                (Char.ofNat (0x10000 + (code - 0xD800) * 0x400 + (low - 0xDC00)) :: acc) rest2
            else none
          | _, _, _, _ => none
        | _ => none
      else if 0xDC00 ≤ code ∧ code ≤ 0xDFFF then none
      else parseStringAux (Char.ofNat code :: acc) rest
    | _, _, _, _ => none
  | '\\' :: _ => none
  | c :: rest => if c.toNat < 32 then none else parseStringAux (c :: acc) rest

/-- Leading decimal digits of the input. -/
def takeDigits : List Char → List Char × List Char
  | [] => ([], [])
  | c :: cs =>
    if c.isDigit then
      let (d, r) := takeDigits cs
      (c :: d, r)
    else ([], c :: cs)

/-- A JSON number literal: `-? (0 | [1-9][0-9]*) (. [0-9]+)? ([eE][+-]?[0-9]+)?`.
Returns the lexeme. -/
def parseNumber (cs : List Char) : Option (String × List Char) :=
  let (sign, cs1) :=
    match cs with
    | '-' :: r => (['-'], r)
    | _ => (([] : List Char), cs)
  match cs1 with
  | [] => none
  | c :: r =>
    if c = '0' then
      parseNumberFrac (sign ++ ['0']) r
    else if c.isDigit then
      let (d, r2) := takeDigits r
      parseNumberFrac (sign ++ c :: d) r2
    else none
where
  /-- Optional fraction part, then the optional exponent. -/
  parseNumberFrac (acc : List Char) (cs : List Char) : Option (String × List Char) :=
    match cs with
    | '.' :: r =>
      let (d, r2) := takeDigits r
      if d = [] then none else parseNumberExp (acc ++ '.' :: d) r2
    | _ => parseNumberExp acc cs
  /-- Optional exponent part. -/
  parseNumberExp (acc : List Char) (cs : List Char) : Option (String × List Char) :=
    match cs with
    | 'e' :: r => parseNumberExpSign (acc ++ ['e']) r
    | 'E' :: r => parseNumberExpSign (acc ++ ['E']) r
    | _ => some (String.mk acc, cs)
  /-- Exponent sign and digits. -/
  parseNumberExpSign (acc : List Char) (cs : List Char) : Option (String × List Char) :=
    let (sgn, cs1) :=
      match cs with
      | '+' :: r => ((['+'] : List Char), r)
      | '-' :: r => (['-'], r)
      | _ => ([], cs)
    let (d, r2) := takeDigits cs1
    if d = [] then none else some (String.mk (acc ++ sgn ++ d), r2)

mutual

/-- One JSON value at the head of the input (whitespace already skipped).
`fuel` strictly decreases on every recursive call; the top-level entry point
supplies more fuel than any parse can consume. -/
def parseVal : Nat → List Char → Option (JsVal × List Char)
  | 0, _ => none
  | fuel + 1, cs =>
    match cs with
    | 'n' :: 'u' :: 'l' :: 'l' :: rest => some (.null, rest)
    | 't' :: 'r' :: 'u' :: 'e' :: rest => some (.bool true, rest)
    | 'f' :: 'a' :: 'l' :: 's' :: 'e' :: rest => some (.bool false, rest)
    | '"' :: rest => (parseStringAux [] rest).map (fun p => (.str p.1, p.2))
    | '[' :: rest =>
      match skipWs rest with
      | ']' :: rest2 => some (.arr [] [], rest2)
      | rest2 => parseArrayRest fuel rest2 []
    | '\x7b' :: rest =>
      match skipWs rest with
      | '\x7d' :: rest2 => some (.obj [], rest2)
      | rest2 => parseObjectRest fuel rest2 []
    | _ => (parseNumber cs).map (fun p => (.num p.1, p.2))

/-- Array elements from the first element on: a value, then either `,` and
more elements or `]`.  `acc` holds the elements read so far, reversed. -/
def parseArrayRest : Nat → List Char → List JsVal → Option (JsVal × List Char)
  | 0, _, _ => none
  | fuel + 1, cs, acc =>
    match parseVal fuel cs with
    | none => none
    | some (v, r) =>
      match skipWs r with
      | ',' :: r2 => parseArrayRest fuel (skipWs r2) (v :: acc)
      | ']' :: r2 => some (.arr (v :: acc).reverse [], r2)
      | _ => none

/-- Object members from the first member on: a quoted key, `:`, a value,
then either `,` and more members or the closing brace.  A duplicate key
overwrites the earlier value in place, as `JSON.parse` does. -/
def parseObjectRest : Nat → List Char → List (String × JsVal) → Option (JsVal × List Char)
  | 0, _, _ => none
  | fuel + 1, cs, acc =>
    match cs with
    | '"' :: r =>
      match parseStringAux [] r with
      | none => none
      | some (k, r2) =>
        match skipWs r2 with
        | ':' :: r3 =>
          match parseVal fuel (skipWs r3) with
          | none => none
          | some (v, r4) =>
            match skipWs r4 with
            | ',' :: r5 => parseObjectRest fuel (skipWs r5) (listSet acc k v)
            | '\x7d' :: r5 => some (.obj (listSet acc k v), r5)
            | _ => none
        | _ => none
    | _ => none

end

/-- `JSON.parse` on a whole text: a single JSON value surrounded by optional
whitespace; anything else is a syntax error (`none`).  The fuel bound
exceeds what any parse of the input can consume, since every fuel step
consumes at least one character. -/
def jsonParse (s : String) : Option JsVal :=
  match parseVal (2 * s.data.length + 2) (skipWs s.data) with
  | some (v, rest) => if skipWs rest = [] then some v else none
  | none => none

/-! The handler itself, translated from `src/post-apps/items-api/app.ts`. -/

/-! HTTP status constants (`HTTP_STATUS` in `app.ts`). -/

namespace HTTP_STATUS

def OK : Nat := 200
def CREATED : Nat := 201
def BAD_REQUEST : Nat := 400
def NOT_FOUND : Nat := 404
def METHOD_NOT_ALLOWED : Nat := 405
def INTERNAL_SERVER_ERROR : Nat := 500
def SERVICE_UNAVAILABLE : Nat := 503

end HTTP_STATUS

/-- `CONFIG.MAX_ID_LENGTH` in `app.ts`.  (`CONFIG.TABLE_NAME` only names the
external table and plays no part in the handler's logic.) -/
def MAX_ID_LENGTH : Nat := 255

/-- The parts of the API Gateway event the handler reads.  `pathParameters`
is a nullable container of string-valued parameters. -/
structure APIGatewayProxyEvent where
  httpMethod : String
  body : Option String
  pathParameters : Option (List (String × String))

/-- The API Gateway response: status code, headers, serialized body. -/
structure APIGatewayProxyResult where
  statusCode : Nat
  headers : List (String × String)
  body : String
deriving DecidableEq, Repr

/-- Result shape of `validateRequestBody`: `{isValid, error?, data?}`. -/
structure ValidationResult where
  isValid : Bool
  error : Option String
  data : Option JsVal

/-- `createSuccessResponse(statusCode, data)`: the status, a JSON
content-type header, and the data serialized with `JSON.stringify`. -/
def createSuccessResponse (statusCode : Nat) (data : JsVal) : APIGatewayProxyResult :=
  { statusCode := statusCode
    headers := [("Content-Type", "application/json")]
    body := data.stringify }

/-- `createErrorResponse(statusCode, message)`.  `now` is the value
`new Date().toISOString()` produces at response-construction time.  The
body serializes `{error: message, statusCode, timestamp}`. -/
def createErrorResponse (now : String) (statusCode : Nat) (message : String) :
    APIGatewayProxyResult :=
  { statusCode := statusCode
    headers := [("Content-Type", "application/json")]
    body := (JsVal.obj
      [("error", .str message),
       ("statusCode", .num (toString statusCode)),
       ("timestamp", .str now)]).stringify }

/-- `validateRequestBody(body)`.  `!body` is true exactly for a missing body
and the empty string.  The `JSON.parse` call is the only statement inside
the validator's `try`, so the `TypeError` that `Object.keys` raises on a
parsed `null` escapes the validator (the `Except.error` branch). -/
def validateRequestBody (body : Option String) : Except JsVal ValidationResult :=
  if body.getD "" = "" then
    .ok { isValid := false, error := some "Request body is required", data := none }
  else
    match jsonParse (body.getD "") with
    | none => .ok { isValid := false, error := some "Invalid JSON format", data := none }
    | some parsedBody =>
      match parsedBody.objectKeys with
      | none => .error (typeError "Cannot convert undefined or null to object")
      | some keys =>
        if keys.length = 0 then
          .ok { isValid := false, error := some "Request body cannot be empty", data := none }
        else
          .ok { isValid := true, error := none, data := some parsedBody }

/-- Names recognized by `isDynamoDBError` (`dynamoDBErrors` in `app.ts`). -/
def dynamoDBErrors : List String :=
  ["ResourceNotFoundException", "ProvisionedThroughputExceededException", "ServiceUnavailable"]

/-- `isDynamoDBError(err)`: requires `typeof err === 'object' && err !== null`
(so objects and arrays qualify, `null` and primitives do not), then tests
`dynamoDBErrors.includes(error.name || '')`.  Since every listed name is a
non-empty string, the `includes` test succeeds exactly when the `name` own
property is a string belonging to the list: a missing or falsy `name`
becomes `''`, which is not listed, and a truthy non-string `name` never
equals a string element under `includes`' strict comparison. -/
def isDynamoDBError (err : JsVal) : Bool :=
  match err with
  | .obj _ | .arr _ _ =>
    (match err.getProp "name" with
     | .str s => dynamoDBErrors.contains s
     | _ => false)
  | _ => false

/-- `createItem(event)`, with the effects made explicit: `uuid` is the value
`randomUUID()` would return, `now` the current ISO-8601 instant, and
`put item` the outcome of the `dynamodb.send(PutCommand)` call whose `Item`
is `item`.  The whole function body runs inside `try`; a caught value
classified by `isDynamoDBError` becomes a 503 response, anything else is
re-thrown. -/
def createItem (uuid now : String) (put : JsVal → Except JsVal Unit)
    (rawBody : Option String) : Except JsVal APIGatewayProxyResult :=
  let attempt : Except JsVal APIGatewayProxyResult :=
    match validateRequestBody rawBody with
    | .error e => .error e
    | .ok validation =>
      if validation.isValid = false then
        .ok (createErrorResponse now HTTP_STATUS.BAD_REQUEST (validation.error.getD ""))
      else
        let body := validation.data.getD .undefined
        -- shared continuation: stamp `createdAt`, store, return 201
        let store : JsVal → Except JsVal APIGatewayProxyResult := fun body =>
          match body.setProp "createdAt" (.str now) with
          | .error e => .error e
          | .ok body =>
            match put body with
            | .error e => .error e
            | .ok _ => .ok (createSuccessResponse HTTP_STATUS.CREATED body)
        -- `if (body.id !== undefined)`
        match body.getProp "id" with
        | .undefined =>
          match body.setProp "id" (.str uuid) with
          | .error e => .error e
          | .ok body => store body
        | .str s =>
          if jsTrim s = "" then
            .ok (createErrorResponse now HTTP_STATUS.BAD_REQUEST "ID must be a non-empty string")
          else store body
        | _ =>
          .ok (createErrorResponse now HTTP_STATUS.BAD_REQUEST "ID must be a non-empty string")
  match attempt with
  | .ok r => .ok r
  | .error err =>
    if isDynamoDBError err then
      .ok (createErrorResponse now HTTP_STATUS.SERVICE_UNAVAILABLE "Database service unavailable")
    else .error err

/-- Look up a path parameter; `none` is JavaScript `undefined`. -/
def lookupParam (ps : List (String × String)) (k : String) : Option String :=
  match ps with
  | [] => none
  | (k', v) :: rest => if k' = k then some v else lookupParam rest k

/-- `getItem(event)`, with `get id` the outcome of the
`dynamodb.send(GetCommand)` call whose `Key` is `{id}` (`Option JsVal` is
the nullable `response.Item`).  As in `createItem`, a caught value
classified by `isDynamoDBError` becomes a 503 response and anything else is
re-thrown. -/
def getItem (now : String) (get : String → Except JsVal (Option JsVal))
    (pathParameters : Option (List (String × String))) :
    Except JsVal APIGatewayProxyResult :=
  let attempt : Except JsVal APIGatewayProxyResult :=
    match pathParameters with
    | none => .ok (createErrorResponse now HTTP_STATUS.BAD_REQUEST "Path parameters are required")
    | some params =>
      -- `const itemId = event.pathParameters.id`
      match lookupParam params "id" with
      | none => .ok (createErrorResponse now HTTP_STATUS.BAD_REQUEST "ID parameter is required")
      | some itemId =>
        -- `if (!itemId || itemId.trim() === '')`
        if itemId = "" ∨ jsTrim itemId = "" then
          .ok (createErrorResponse now HTTP_STATUS.BAD_REQUEST "ID parameter is required")
        else if jsLength itemId > MAX_ID_LENGTH then
          .ok (createErrorResponse now HTTP_STATUS.BAD_REQUEST "ID parameter is too long")
        else
          match get itemId with
          | .error e => .error e
          | .ok none => .ok (createErrorResponse now HTTP_STATUS.NOT_FOUND "Item not found")
          | .ok (some item) => .ok (createSuccessResponse HTTP_STATUS.OK item)
  match attempt with
  | .ok r => .ok r
  | .error err =>
    if isDynamoDBError err then
      .ok (createErrorResponse now HTTP_STATUS.SERVICE_UNAVAILABLE "Database service unavailable")
    else .error err

/-- `lambdaHandler(event)`: dispatch on `event.httpMethod` by exact string
comparison; any other method is a 405 response, and any exception escaping
the two paths is converted to a 500 response at this single boundary. -/
def lambdaHandler (uuid now : String) (put : JsVal → Except JsVal Unit)
    (get : String → Except JsVal (Option JsVal)) (event : APIGatewayProxyEvent) :
    APIGatewayProxyResult :=
  let result : Except JsVal APIGatewayProxyResult :=
    if event.httpMethod = "POST" then createItem uuid now put event.body
    else if event.httpMethod = "GET" then getItem now get event.pathParameters
    else .ok (createErrorResponse now HTTP_STATUS.METHOD_NOT_ALLOWED "Method not allowed")
  match result with
  | .ok r => r
  | .error _ =>
    createErrorResponse now HTTP_STATUS.INTERNAL_SERVER_ERROR "Internal server error"


/-- The values satisfying `typeof err === 'object' && err !== null`: objects
and arrays (the only JavaScript values of typeof "object" in this model,
`null` excluded). -/
def isObjectLike : JsVal → Bool
  | .obj _ => true
  | .arr _ _ => true
  | _ => false

/-! Basic lemmas about own-property lookup and assignment. -/

theorem lookupField_listSet_self (l : List (String × JsVal)) (k : String) (v : JsVal) :
    lookupField (listSet l k v) k = some v := by
  induction l with
  | nil => simp [listSet, lookupField]
  | cons p rest ih =>
    obtain ⟨k', v'⟩ := p
    by_cases h : k' = k <;> simp [listSet, lookupField, h, ih]

theorem lookupField_listSet_ne (l : List (String × JsVal)) (k k' : String) (v : JsVal)
    (h : k' ≠ k) : lookupField (listSet l k v) k' = lookupField l k' := by
  induction l with
  | nil => simp [listSet, lookupField, Ne.symm h]
  | cons p rest ih =>
    obtain ⟨k'', v''⟩ := p
    by_cases hk : k'' = k
    · subst hk
      simp [listSet, lookupField, Ne.symm h]
    · simp [listSet, lookupField, hk, ih]

/-- C1: for every create request, `validateRequestBody` applies its rules in
order with the first failure winning: a missing or empty raw body is invalid
with reason "Request body is required"; otherwise a body that does not parse
as JSON is invalid with reason "Invalid JSON format"; otherwise a parsed
value with zero own keys is invalid with reason "Request body cannot be
empty"; otherwise the result is valid and carries the parsed value as
`data`; and the create path maps each invalid result to a status-400
response whose error field is the reason. -/
theorem C1_validate_order_and_400 (uuid now : String) (put : JsVal → Except JsVal Unit)
    (body : Option String) :
    ((body = none ∨ body = some "") →
      validateRequestBody body =
        .ok { isValid := false, error := some "Request body is required", data := none })
  ∧ (∀ s, body = some s → s ≠ "" → jsonParse s = none →
      validateRequestBody body =
        .ok { isValid := false, error := some "Invalid JSON format", data := none })
  ∧ (∀ s v ks, body = some s → s ≠ "" → jsonParse s = some v → v.objectKeys = some ks →
      ks = [] →
      validateRequestBody body =
        .ok { isValid := false, error := some "Request body cannot be empty", data := none })
  ∧ (∀ s v ks, body = some s → s ≠ "" → jsonParse s = some v → v.objectKeys = some ks →
      ks ≠ [] →
      validateRequestBody body = .ok { isValid := true, error := none, data := some v })
  ∧ (∀ reason,
      validateRequestBody body =
        .ok { isValid := false, error := some reason, data := none } →
      createItem uuid now put body =
        .ok (createErrorResponse now HTTP_STATUS.BAD_REQUEST reason)) := by
  refine ⟨?_, ?_, ?_, ?_, ?_⟩
  · rintro (rfl | rfl) <;> simp [validateRequestBody]
  · rintro s rfl hne hp
    simp [validateRequestBody, hne, hp]
  · rintro s v ks rfl hne hp hk rfl
    simp [validateRequestBody, hne, hp, hk]
  · rintro s v ks rfl hne hp hk hks
    simp [validateRequestBody, hne, hp, hk, List.length_eq_zero, hks]
  · intro reason hval
    simp [createItem, hval]

/-- C1 witness: the empty JSON object is rejected by the third rule, and the
create path converts it to a 400 response carrying that reason. -/
theorem C1_validate_order_and_400_witness :
    validateRequestBody (some "\x7b\x7d") =
      .ok { isValid := false, error := some "Request body cannot be empty", data := none } ∧
    createItem "u" "t" (fun _ => .ok ()) (some "\x7b\x7d") =
      .ok (createErrorResponse "t" HTTP_STATUS.BAD_REQUEST "Request body cannot be empty") := by
  have h := C1_validate_order_and_400 "u" "t" (fun _ => .ok ()) (some "\x7b\x7d")
  have h3 := h.2.2.1 "\x7b\x7d" (.obj []) [] rfl (by decide) (by rfl) (by rfl) rfl
  exact ⟨h3, h.2.2.2.2 "Request body cannot be empty" h3⟩

/-- C2: `lambdaHandler` dispatches by exact, case-sensitive method token:
"POST" goes to the create path and "GET" to the fetch path — in both cases
an exception escaping the path is converted at this single boundary to a
500 response with error "Internal server error" — and every other method
token yields a 405 response with error "Method not allowed". -/
theorem C2_dispatch (uuid now : String) (put : JsVal → Except JsVal Unit)
    (get : String → Except JsVal (Option JsVal)) (event : APIGatewayProxyEvent) :
    (event.httpMethod = "POST" →
      lambdaHandler uuid now put get event =
        (match createItem uuid now put event.body with
         | .ok r => r
         | .error _ =>
           createErrorResponse now HTTP_STATUS.INTERNAL_SERVER_ERROR "Internal server error"))
  ∧ (event.httpMethod = "GET" →
      lambdaHandler uuid now put get event =
        (match getItem now get event.pathParameters with
         | .ok r => r
         | .error _ =>
           createErrorResponse now HTTP_STATUS.INTERNAL_SERVER_ERROR "Internal server error"))
  ∧ (event.httpMethod ≠ "POST" → event.httpMethod ≠ "GET" →
      lambdaHandler uuid now put get event =
        createErrorResponse now HTTP_STATUS.METHOD_NOT_ALLOWED "Method not allowed") := by
  refine ⟨?_, ?_, ?_⟩
  · intro h
    simp [lambdaHandler, h]
  · intro h
    simp [lambdaHandler, h]
  · intro h1 h2
    simp [lambdaHandler, h1, h2]

/-- C2 witness: a PATCH request is answered with the 405 response, and a
POST whose storage call throws a plain string is answered with the 500
response through the top-level boundary. -/
theorem C2_dispatch_witness :
    lambdaHandler "u" "t" (fun _ => .ok ()) (fun _ => .ok none)
      { httpMethod := "PATCH", body := none, pathParameters := none } =
      createErrorResponse "t" HTTP_STATUS.METHOD_NOT_ALLOWED "Method not allowed" ∧
    lambdaHandler "u" "t" (fun _ => .error (.str "boom")) (fun _ => .ok none)
      { httpMethod := "POST", body := some "\x7b\"a\":1\x7d", pathParameters := none } =
      createErrorResponse "t" HTTP_STATUS.INTERNAL_SERVER_ERROR "Internal server error" := by
  constructor
  · exact (C2_dispatch "u" "t" (fun _ => .ok ()) (fun _ => .ok none)
      { httpMethod := "PATCH", body := none, pathParameters := none }).2.2
      (by decide) (by decide)
  · have h := (C2_dispatch "u" "t" (fun _ => .error (.str "boom")) (fun _ => .ok none)
      { httpMethod := "POST", body := some "\x7b\"a\":1\x7d", pathParameters := none }).1 rfl
    rw [h]
    rfl

/-- Helper: once the fetch path has a present parameter container, a
non-blank id, and a length within the cap, the outcome is decided by the
storage call alone. -/
theorem getItem_valid_id (now : String) (get : String → Except JsVal (Option JsVal))
    (ps : List (String × String)) (id : String)
    (hlook : lookupParam ps "id" = some id) (htrim : jsTrim id ≠ "")
    (hlen : jsLength id ≤ MAX_ID_LENGTH) :
    getItem now get (some ps) =
      (match get id with
       | .error e =>
         if isDynamoDBError e then
           .ok (createErrorResponse now HTTP_STATUS.SERVICE_UNAVAILABLE
             "Database service unavailable")
         else .error e
       | .ok none => .ok (createErrorResponse now HTTP_STATUS.NOT_FOUND "Item not found")
       | .ok (some item) => .ok (createSuccessResponse HTTP_STATUS.OK item)) := by
  have hid : id ≠ "" := by
    rintro rfl
    exact htrim rfl
  rcases hget : get id with e | o
  · simp [getItem, hlook, hid, htrim, Nat.not_lt.mpr hlen, hget]
  · rcases o with _ | item <;> simp [getItem, hlook, hid, htrim, Nat.not_lt.mpr hlen, hget]

/-- C6: the fetch path checks, in order: a missing path-parameter container
is answered 400 "Path parameters are required"; an absent id, or an id that
is empty after trimming (whatever its length), is answered 400 "ID
parameter is required"; an id whose length exceeds 255 is answered 400 "ID
parameter is too long"; and an id of length at most 255 (in particular
exactly 255) passes the length check and reaches the storage call. -/
theorem C6_getItem_param_checks (now : String) (get : String → Except JsVal (Option JsVal)) :
    (getItem now get none =
      .ok (createErrorResponse now HTTP_STATUS.BAD_REQUEST "Path parameters are required"))
  ∧ (∀ ps, lookupParam ps "id" = none →
      getItem now get (some ps) =
        .ok (createErrorResponse now HTTP_STATUS.BAD_REQUEST "ID parameter is required"))
  ∧ (∀ ps id, lookupParam ps "id" = some id → jsTrim id = "" →
      getItem now get (some ps) =
        .ok (createErrorResponse now HTTP_STATUS.BAD_REQUEST "ID parameter is required"))
  ∧ (∀ ps id, lookupParam ps "id" = some id → jsTrim id ≠ "" →
      jsLength id > MAX_ID_LENGTH →
      getItem now get (some ps) =
        .ok (createErrorResponse now HTTP_STATUS.BAD_REQUEST "ID parameter is too long"))
  ∧ (∀ ps id, lookupParam ps "id" = some id → jsTrim id ≠ "" →
      jsLength id ≤ MAX_ID_LENGTH →
      getItem now get (some ps) =
        (match get id with
         | .error e =>
           if isDynamoDBError e then
             .ok (createErrorResponse now HTTP_STATUS.SERVICE_UNAVAILABLE
               "Database service unavailable")
           else .error e
         | .ok none => .ok (createErrorResponse now HTTP_STATUS.NOT_FOUND "Item not found")
         | .ok (some item) => .ok (createSuccessResponse HTTP_STATUS.OK item))) := by
  refine ⟨?_, ?_, ?_, ?_, ?_⟩
  · simp [getItem]
  · intro ps hlook
    simp [getItem, hlook]
  · intro ps id hlook htrim
    simp [getItem, hlook, htrim]
  · intro ps id hlook htrim hlen
    have hid : id ≠ "" := by
      rintro rfl
      exact htrim rfl
    simp [getItem, hlook, hid, htrim, hlen]
  · intro ps id hlook htrim hlen
    exact getItem_valid_id now get ps id hlook htrim hlen

set_option maxRecDepth 4096 in
/-- C6 witness: a missing container, a whitespace-only id, a 256-character
id, and a 255-character id behave as the claim states (the last one
reaching the storage call, here answering 404). -/
theorem C6_getItem_param_checks_witness :
    getItem "t" (fun _ => .ok none) none =
      .ok (createErrorResponse "t" HTTP_STATUS.BAD_REQUEST "Path parameters are required") ∧
    getItem "t" (fun _ => .ok none) (some [("id", "   ")]) =
      .ok (createErrorResponse "t" HTTP_STATUS.BAD_REQUEST "ID parameter is required") ∧
    getItem "t" (fun _ => .ok none) (some [("id", String.mk (List.replicate 256 'a'))]) =
      .ok (createErrorResponse "t" HTTP_STATUS.BAD_REQUEST "ID parameter is too long") ∧
    getItem "t" (fun _ => .ok none) (some [("id", String.mk (List.replicate 255 'a'))]) =
      .ok (createErrorResponse "t" HTTP_STATUS.NOT_FOUND "Item not found") := by
  have h := C6_getItem_param_checks "t" (fun _ => .ok none)
  refine ⟨h.1, ?_, ?_, ?_⟩
  · exact h.2.2.1 [("id", "   ")] "   " rfl (by decide)
  · exact h.2.2.2.1 [("id", String.mk (List.replicate 256 'a'))]
      (String.mk (List.replicate 256 'a')) rfl (by decide) (by decide)
  · have h5 := h.2.2.2.2 [("id", String.mk (List.replicate 255 'a'))]
      (String.mk (List.replicate 255 'a')) rfl (by decide) (by decide)
    rw [h5]

/-- C7: for a fetch request with a valid id that reaches the storage call,
an absent record is answered 404 with error exactly "Item not found", and
an existing record is answered 200 with the stored record serialized
verbatim as the body — no field filtering or modification. -/
theorem C7_fetch_found_and_not_found (now : String)
    (get : String → Except JsVal (Option JsVal)) (ps : List (String × String)) (id : String)
    (hlook : lookupParam ps "id" = some id) (htrim : jsTrim id ≠ "")
    (hlen : jsLength id ≤ MAX_ID_LENGTH) :
    (get id = .ok none →
      getItem now get (some ps) =
        .ok (createErrorResponse now HTTP_STATUS.NOT_FOUND "Item not found"))
  ∧ (∀ item, get id = .ok (some item) →
      getItem now get (some ps) = .ok (createSuccessResponse HTTP_STATUS.OK item) ∧
      (createSuccessResponse HTTP_STATUS.OK item).statusCode = 200 ∧
      (createSuccessResponse HTTP_STATUS.OK item).body = item.stringify) := by
  constructor
  · intro hget
    rw [getItem_valid_id now get ps id hlook htrim hlen, hget]
  · intro item hget
    rw [getItem_valid_id now get ps id hlook htrim hlen, hget]
    exact ⟨rfl, rfl, rfl⟩

/-- C7 witness: at id "abc", an empty lookup yields the 404 response and a
stored record with reserved and caller-supplied keys is returned verbatim. -/
theorem C7_fetch_found_and_not_found_witness :
    getItem "t" (fun _ => .ok none) (some [("id", "abc")]) =
      .ok (createErrorResponse "t" HTTP_STATUS.NOT_FOUND "Item not found") ∧
    getItem "t" (fun _ => .ok (some (.obj [("id", .str "abc"), ("extra", .num "7")])))
        (some [("id", "abc")]) =
      .ok (createSuccessResponse HTTP_STATUS.OK
        (.obj [("id", .str "abc"), ("extra", .num "7")])) := by
  constructor
  · exact (C7_fetch_found_and_not_found "t" (fun _ => .ok none) [("id", "abc")] "abc"
      rfl (by decide) (by decide)).1 rfl
  · exact ((C7_fetch_found_and_not_found "t"
      (fun _ => .ok (some (.obj [("id", .str "abc"), ("extra", .num "7")])))
      [("id", "abc")] "abc" rfl (by decide) (by decide)).2
      (.obj [("id", .str "abc"), ("extra", .num "7")]) rfl).1

/-- C3: a thrown storage value is classified as a DynamoDB error exactly
when it is a non-null object whose `name` field is one of the fixed
allow-list; when the create path's put or the fetch path's get throws, the
handler answers 503 "Database service unavailable" for a classified value,
and every other thrown value is re-thrown and becomes 500 "Internal server
error" at the top-level boundary. -/
theorem C3_storage_throw_mapping :
    (∀ e : JsVal, isDynamoDBError e = true ↔
      (isObjectLike e = true ∧ ∃ s, e.getProp "name" = .str s ∧ s ∈ dynamoDBErrors))
  ∧ (∀ (uuid now : String) (e : JsVal) (rawBody : Option String) (v : JsVal)
       (put : JsVal → Except JsVal Unit) (get : String → Except JsVal (Option JsVal))
       (pp : Option (List (String × String))),
      validateRequestBody rawBody = .ok { isValid := true, error := none, data := some v } →
      isObjectLike v = true →
      (v.getProp "id" = .undefined ∨ ∃ t, v.getProp "id" = .str t ∧ jsTrim t ≠ "") →
      (∀ r, put r = .error e) →
      createItem uuid now put rawBody =
        (if isDynamoDBError e then
           .ok (createErrorResponse now HTTP_STATUS.SERVICE_UNAVAILABLE
             "Database service unavailable")
         else .error e) ∧
      lambdaHandler uuid now put get
          { httpMethod := "POST", body := rawBody, pathParameters := pp } =
        (if isDynamoDBError e then
           createErrorResponse now HTTP_STATUS.SERVICE_UNAVAILABLE
             "Database service unavailable"
         else
           createErrorResponse now HTTP_STATUS.INTERNAL_SERVER_ERROR
             "Internal server error"))
  ∧ (∀ (uuid now : String) (e : JsVal) (put : JsVal → Except JsVal Unit)
       (get : String → Except JsVal (Option JsVal)) (ps : List (String × String))
       (id : String) (pb : Option String),
      lookupParam ps "id" = some id → jsTrim id ≠ "" → jsLength id ≤ MAX_ID_LENGTH →
      get id = .error e →
      getItem now get (some ps) =
        (if isDynamoDBError e then
           .ok (createErrorResponse now HTTP_STATUS.SERVICE_UNAVAILABLE
             "Database service unavailable")
         else .error e) ∧
      lambdaHandler uuid now put get
          { httpMethod := "GET", body := pb, pathParameters := some ps } =
        (if isDynamoDBError e then
           createErrorResponse now HTTP_STATUS.SERVICE_UNAVAILABLE
             "Database service unavailable"
         else
           createErrorResponse now HTTP_STATUS.INTERNAL_SERVER_ERROR
             "Internal server error")) := by
  refine ⟨?_, ?_, ?_⟩
  · intro e
    cases e <;> simp [isDynamoDBError, isObjectLike]
    case arr es props =>
      rcases h : lookupField props "name" with _ | v
      · simp [JsVal.getProp, h]
      · cases v <;> simp [JsVal.getProp, h, List.elem_iff]
    case obj fs =>
      rcases h : lookupField fs "name" with _ | v
      · simp [JsVal.getProp, h]
      · cases v <;> simp [JsVal.getProp, h, List.elem_iff]
  · intro uuid now e rawBody v put get pp hval hobj hid hput
    have hcre : createItem uuid now put rawBody =
        (if isDynamoDBError e then
           .ok (createErrorResponse now HTTP_STATUS.SERVICE_UNAVAILABLE
             "Database service unavailable")
         else .error e) := by
      cases v with
      | arr es ps =>
        rcases hid with hundef | ⟨t, hstr, htr⟩
        · simp [createItem, hval, hundef, JsVal.setProp, hput]
        · simp [createItem, hval, hstr, htr, JsVal.setProp, hput]
      | obj fs =>
        rcases hid with hundef | ⟨t, hstr, htr⟩
        · simp [createItem, hval, hundef, JsVal.setProp, hput]
        · simp [createItem, hval, hstr, htr, JsVal.setProp, hput]
      | _ => simp [isObjectLike] at hobj
    refine ⟨hcre, ?_⟩
    by_cases hc : isDynamoDBError e <;> simp [lambdaHandler, hcre, hc]
  · intro uuid now e put get ps id pb hlook htrim hlen hget
    have hre : getItem now get (some ps) =
        (if isDynamoDBError e then
           .ok (createErrorResponse now HTTP_STATUS.SERVICE_UNAVAILABLE
             "Database service unavailable")
         else .error e) := by
      rw [getItem_valid_id now get ps id hlook htrim hlen, hget]
    refine ⟨hre, ?_⟩
    by_cases hc : isDynamoDBError e <;> simp [lambdaHandler, hre, hc]

/-- C3 witness: a `ServiceUnavailable`-named object is classified and maps
to 503 on the create path; a thrown bare string is not classified and maps
to 500 on the fetch path. -/
theorem C3_storage_throw_mapping_witness :
    isDynamoDBError (.obj [("name", .str "ServiceUnavailable")]) = true ∧
    isDynamoDBError (.str "boom") = false ∧
    lambdaHandler "u" "t" (fun _ => .error (.obj [("name", .str "ServiceUnavailable")]))
      (fun _ => .ok none)
      { httpMethod := "POST", body := some "\x7b\"a\":1\x7d", pathParameters := none } =
      createErrorResponse "t" HTTP_STATUS.SERVICE_UNAVAILABLE "Database service unavailable" ∧
    lambdaHandler "u" "t" (fun _ => .ok ()) (fun _ => .error (.str "boom"))
      { httpMethod := "GET", body := none, pathParameters := some [("id", "abc")] } =
      createErrorResponse "t" HTTP_STATUS.INTERNAL_SERVER_ERROR "Internal server error" := by
  refine ⟨?_, ?_, ?_, ?_⟩
  · exact (C3_storage_throw_mapping.1 (.obj [("name", .str "ServiceUnavailable")])).mpr
      ⟨rfl, "ServiceUnavailable", rfl, by decide⟩
  · by_contra h
    have h2 := (C3_storage_throw_mapping.1 (.str "boom")).mp (by simpa using h)
    simp [isObjectLike] at h2
  · have h := (C3_storage_throw_mapping.2.1 "u" "t"
      (.obj [("name", .str "ServiceUnavailable")]) (some "\x7b\"a\":1\x7d")
      (.obj [("a", .num "1")])
      (fun _ => .error (.obj [("name", .str "ServiceUnavailable")])) (fun _ => .ok none)
      none (by rfl) rfl (Or.inl rfl) (fun r => rfl)).2
    rw [h]
    rfl
  · have h := (C3_storage_throw_mapping.2.2 "u" "t" (.str "boom") (fun _ => .ok ())
      (fun _ => .error (.str "boom")) [("id", "abc")] "abc" none rfl (by decide)
      (by decide) rfl).2
    rw [h]
    rfl

/-- C4 counterexample: the body string "null" parses as JSON to a value
with zero own keys, yet the create path does not produce the 400 "Request
body cannot be empty" response: the zero-own-keys check itself
(`Object.keys(null)`) throws a `TypeError`, which escapes the validator and
the create path and is converted at the top-level boundary into the 500
"Internal server error" response. -/
theorem C4_counterexample :
    jsonParse "null" = some .null ∧
    lambdaHandler "u" "t" (fun _ => .ok ()) (fun _ => .ok none)
      { httpMethod := "POST", body := some "null", pathParameters := none } =
      createErrorResponse "t" HTTP_STATUS.INTERNAL_SERVER_ERROR "Internal server error" ∧
    lambdaHandler "u" "t" (fun _ => .ok ()) (fun _ => .ok none)
      { httpMethod := "POST", body := some "null", pathParameters := none } ≠
      createErrorResponse "t" HTTP_STATUS.BAD_REQUEST "Request body cannot be empty" ∧
    (lambdaHandler "u" "t" (fun _ => .ok ()) (fun _ => .ok none)
      { httpMethod := "POST", body := some "null", pathParameters := none }).statusCode = 500 := by
  exact ⟨rfl, rfl, by decide, rfl⟩

/-- C4 (amended): for every create request whose body is present, validation
failures are converted locally to 400 — a non-JSON body to "Invalid JSON
format", and a body parsing to a non-null value with zero own keys to
"Request body cannot be empty" — with one exception: a body parsing to JSON
null (for example the string "null") makes the zero-own-keys check throw a
TypeError that escapes as an exception and produces status 500 "Internal
server error", not a 400. -/
theorem C4_amended (uuid now : String) (put : JsVal → Except JsVal Unit)
    (get : String → Except JsVal (Option JsVal)) (s : String)
    (pp : Option (List (String × String))) :
    (s ≠ "" → jsonParse s = none →
      createItem uuid now put (some s) =
        .ok (createErrorResponse now HTTP_STATUS.BAD_REQUEST "Invalid JSON format"))
  ∧ (∀ v, s ≠ "" → jsonParse s = some v → v.objectKeys = some [] →
      createItem uuid now put (some s) =
        .ok (createErrorResponse now HTTP_STATUS.BAD_REQUEST "Request body cannot be empty"))
  ∧ (s ≠ "" → jsonParse s = some .null →
      createItem uuid now put (some s) =
        .error (typeError "Cannot convert undefined or null to object") ∧
      lambdaHandler uuid now put get
          { httpMethod := "POST", body := some s, pathParameters := pp } =
        createErrorResponse now HTTP_STATUS.INTERNAL_SERVER_ERROR "Internal server error") := by
  refine ⟨?_, ?_, ?_⟩
  · intro hne hp
    simp [createItem, validateRequestBody, hne, hp]
  · intro v hne hp hk
    simp [createItem, validateRequestBody, hne, hp, hk]
  · intro hne hp
    have hcre : createItem uuid now put (some s) =
        .error (typeError "Cannot convert undefined or null to object") := by
      simp [createItem, validateRequestBody, hne, hp, JsVal.objectKeys,
        isDynamoDBError, typeError, JsVal.getProp, lookupField, dynamoDBErrors]
    exact ⟨hcre, by simp [lambdaHandler, hcre]⟩

/-- C4 witness for the amended claim: "not json" and "true" are converted
locally to their 400 responses, while "null" escapes as a TypeError and is
answered 500. -/
theorem C4_amended_witness :
    createItem "u" "t" (fun _ => .ok ()) (some "not json") =
      .ok (createErrorResponse "t" HTTP_STATUS.BAD_REQUEST "Invalid JSON format") ∧
    createItem "u" "t" (fun _ => .ok ()) (some "true") =
      .ok (createErrorResponse "t" HTTP_STATUS.BAD_REQUEST "Request body cannot be empty") ∧
    createItem "u" "t" (fun _ => .ok ()) (some "null") =
      .error (typeError "Cannot convert undefined or null to object") := by
  refine ⟨?_, ?_, ?_⟩
  · exact (C4_amended "u" "t" (fun _ => .ok ()) (fun _ => .ok none) "not json" none).1
      (by decide) rfl
  · exact (C4_amended "u" "t" (fun _ => .ok ()) (fun _ => .ok none) "true" none).2.1
      (.bool true) (by decide) rfl rfl
  · exact ((C4_amended "u" "t" (fun _ => .ok ()) (fun _ => .ok none) "null" none).2.2
      (by decide) rfl).1

/-- Helper: a body that parses to a non-empty JSON object passes
validation, carrying the parsed object. -/
theorem validate_ok_of_obj (s : String) (fields : List (String × JsVal))
    (hp : jsonParse s = some (.obj fields)) (hne : fields ≠ []) :
    validateRequestBody (some s) =
      .ok { isValid := true, error := none, data := some (.obj fields) } := by
  have hs : s ≠ "" := by
    rintro rfl
    rw [show jsonParse "" = none from rfl] at hp
    exact Option.noConfusion hp
  simp [validateRequestBody, hs, hp, JsVal.objectKeys, List.length_eq_zero, hne]

/-- C5: on a successful create with an object body, the response has status
201 and carries the parsed record with every caller-supplied field other
than `id` and `createdAt` unchanged, `id` equal to the validated
caller-supplied value or to the freshly generated identifier when absent,
and `createdAt` overwritten with the current instant regardless of any
caller-supplied value. -/
theorem C5_create_success_record (uuid now : String) (s : String)
    (fields : List (String × JsVal)) (put : JsVal → Except JsVal Unit)
    (hp : jsonParse s = some (.obj fields)) (hne : fields ≠ []) :
    (lookupField fields "id" = none →
      ∀ rec, rec = JsVal.obj (listSet (listSet fields "id" (.str uuid)) "createdAt" (.str now)) →
      put rec = .ok () →
      createItem uuid now put (some s) = .ok (createSuccessResponse HTTP_STATUS.CREATED rec) ∧
      rec.getProp "id" = .str uuid ∧
      rec.getProp "createdAt" = .str now ∧
      (∀ k, k ≠ "id" → k ≠ "createdAt" → rec.getProp k = (JsVal.obj fields).getProp k))
  ∧ (∀ t, lookupField fields "id" = some (.str t) → jsTrim t ≠ "" →
      ∀ rec, rec = JsVal.obj (listSet fields "createdAt" (.str now)) →
      put rec = .ok () →
      createItem uuid now put (some s) = .ok (createSuccessResponse HTTP_STATUS.CREATED rec) ∧
      rec.getProp "id" = .str t ∧
      rec.getProp "createdAt" = .str now ∧
      (∀ k, k ≠ "id" → k ≠ "createdAt" → rec.getProp k = (JsVal.obj fields).getProp k)) := by
  have hval := validate_ok_of_obj s fields hp hne
  have hne1 : ("id" : String) ≠ "createdAt" := by decide
  constructor
  · intro hidn rec hrec hput
    subst hrec
    refine ⟨?_, ?_, ?_, ?_⟩
    · simp [createItem, hval, JsVal.getProp, hidn, JsVal.setProp, hput]
    · simp only [JsVal.getProp]
      rw [lookupField_listSet_ne _ _ _ _ hne1, lookupField_listSet_self]
      rfl
    · simp only [JsVal.getProp]
      rw [lookupField_listSet_self]
      rfl
    · intro k hk1 hk2
      simp only [JsVal.getProp]
      rw [lookupField_listSet_ne _ _ _ _ hk2, lookupField_listSet_ne _ _ _ _ hk1]
  · intro t hstr htr rec hrec hput
    subst hrec
    refine ⟨?_, ?_, ?_, ?_⟩
    · simp [createItem, hval, JsVal.getProp, hstr, htr, JsVal.setProp, hput]
    · simp only [JsVal.getProp]
      rw [lookupField_listSet_ne _ _ _ _ hne1, hstr]
      rfl
    · simp only [JsVal.getProp]
      rw [lookupField_listSet_self]
      rfl
    · intro k hk1 hk2
      simp only [JsVal.getProp]
      rw [lookupField_listSet_ne _ _ _ _ hk2]

/-- C5 witness: the body from the spec's Scenario A, with no caller id,
yields 201 with `name`/`price` preserved, the fresh id, and the server
timestamp. -/
theorem C5_create_success_record_witness :
    createItem "u" "t" (fun _ => .ok ()) (some "\x7b\"name\":\"x\",\"price\":1\x7d") =
      .ok (createSuccessResponse HTTP_STATUS.CREATED
        (.obj [("name", .str "x"), ("price", .num "1"),
               ("id", .str "u"), ("createdAt", .str "t")])) ∧
    (JsVal.obj [("name", .str "x"), ("price", .num "1"),
               ("id", .str "u"), ("createdAt", .str "t")]).getProp "name" =
      (JsVal.obj [("name", .str "x"), ("price", .num "1")]).getProp "name" := by
  have h := (C5_create_success_record "u" "t" "\x7b\"name\":\"x\",\"price\":1\x7d"
      [("name", .str "x"), ("price", .num "1")] (fun _ => .ok ()) rfl (by simp)).1
      rfl
      (.obj [("name", .str "x"), ("price", .num "1"),
             ("id", .str "u"), ("createdAt", .str "t")])
      (by simp [listSet])
      rfl
  exact ⟨h.1, h.2.2.2 "name" (by decide) (by decide)⟩

/-- C8: for a create request whose object body supplies an `id` field, the
request is rejected with 400 "ID must be a non-empty string" exactly when
the supplied id is not a string or is empty after trimming; when accepted,
the stored and returned record's id is the supplied value exactly (no
trimming applied to the stored value), and the rejection response can not
arise for an accepted id whatever the storage outcome.  (`idv` is a JSON
value, so it is never `undefined`; a hypothetical stored `undefined` would
instead read as an absent id.) -/
theorem C8_supplied_id (uuid now : String) (s : String)
    (fields : List (String × JsVal)) (put : JsVal → Except JsVal Unit) (idv : JsVal)
    (hp : jsonParse s = some (.obj fields)) (hid : lookupField fields "id" = some idv)
    (hundef : idv ≠ .undefined) :
    ((∀ t, idv = .str t → jsTrim t = "") →
      createItem uuid now put (some s) =
        .ok (createErrorResponse now HTTP_STATUS.BAD_REQUEST "ID must be a non-empty string"))
  ∧ (∀ t, idv = .str t → jsTrim t ≠ "" →
      (∀ rec, rec = JsVal.obj (listSet fields "createdAt" (.str now)) →
        put rec = .ok () →
        createItem uuid now put (some s) =
          .ok (createSuccessResponse HTTP_STATUS.CREATED rec) ∧
        rec.getProp "id" = .str t) ∧
      createItem uuid now put (some s) ≠
        .ok (createErrorResponse now HTTP_STATUS.BAD_REQUEST "ID must be a non-empty string")) := by
  have hne : fields ≠ [] := by
    rintro rfl
    rw [show lookupField [] "id" = none from rfl] at hid
    exact Option.noConfusion hid
  have hval := validate_ok_of_obj s fields hp hne
  have hne1 : ("id" : String) ≠ "createdAt" := by decide
  constructor
  · intro hrej
    cases idv with
    | str t =>
      have ht : jsTrim t = "" := hrej t rfl
      simp [createItem, hval, JsVal.getProp, hid, ht]
    | undefined => exact absurd rfl hundef
    | null => simp [createItem, hval, JsVal.getProp, hid]
    | bool b => simp [createItem, hval, JsVal.getProp, hid]
    | num lit => simp [createItem, hval, JsVal.getProp, hid]
    | arr es ps => simp [createItem, hval, JsVal.getProp, hid]
    | obj fs => simp [createItem, hval, JsVal.getProp, hid]
  · intro t hstr htr
    subst hstr
    constructor
    · intro rec hrec hput
      subst hrec
      constructor
      · simp [createItem, hval, JsVal.getProp, hid, htr, JsVal.setProp, hput]
      · simp only [JsVal.getProp]
        rw [lookupField_listSet_ne _ _ _ _ hne1, hid]
        rfl
    · intro hcontra
      rcases hput : put (.obj (listSet fields "createdAt" (.str now))) with e | u
      · by_cases hc : isDynamoDBError e
        · rw [show createItem uuid now put (some s) =
              .ok (createErrorResponse now HTTP_STATUS.SERVICE_UNAVAILABLE
                "Database service unavailable") from by
              simp [createItem, hval, JsVal.getProp, hid, htr, JsVal.setProp, hput, hc]]
            at hcontra
          have := congrArg
            (fun r => match r with
                      | .ok resp => APIGatewayProxyResult.statusCode resp
                      | .error _ => 0) hcontra
          simp only [createErrorResponse] at this
          exact absurd this (by decide)
        · rw [show createItem uuid now put (some s) = .error e from by
              simp [createItem, hval, JsVal.getProp, hid, htr, JsVal.setProp, hput, hc]]
            at hcontra
          exact Except.noConfusion hcontra
      · rw [show createItem uuid now put (some s) =
            .ok (createSuccessResponse HTTP_STATUS.CREATED
              (.obj (listSet fields "createdAt" (.str now)))) from by
            simp [createItem, hval, JsVal.getProp, hid, htr, JsVal.setProp, hput]]
          at hcontra
        have := congrArg
          (fun r => match r with
                    | .ok resp => APIGatewayProxyResult.statusCode resp
                    | .error _ => 0) hcontra
        simp only [createErrorResponse, createSuccessResponse] at this
        exact absurd this (by decide)

/-- C8 witness: an id that is blank after trimming is rejected; the
untrimmed id " k " is stored and returned exactly. -/
theorem C8_supplied_id_witness :
    createItem "u" "t" (fun _ => .ok ()) (some "\x7b\"id\":\"  \"\x7d") =
      .ok (createErrorResponse "t" HTTP_STATUS.BAD_REQUEST "ID must be a non-empty string") ∧
    createItem "u" "t" (fun _ => .ok ()) (some "\x7b\"id\":\" k \"\x7d") =
      .ok (createSuccessResponse HTTP_STATUS.CREATED
        (.obj [("id", .str " k "), ("createdAt", .str "t")])) ∧
    (JsVal.obj [("id", .str " k "), ("createdAt", .str "t")]).getProp "id" = .str " k " := by
  refine ⟨?_, ?_, ?_⟩
  · exact (C8_supplied_id "u" "t" "\x7b\"id\":\"  \"\x7d" [("id", .str "  ")]
      (fun _ => .ok ()) (.str "  ") rfl rfl (fun h => JsVal.noConfusion h)).1
      (by intro t ht; cases ht; decide)
  · exact (((C8_supplied_id "u" "t" "\x7b\"id\":\" k \"\x7d" [("id", .str " k ")]
      (fun _ => .ok ()) (.str " k ") rfl rfl (fun h => JsVal.noConfusion h)).2 " k " rfl (by decide)).1
      (.obj [("id", .str " k "), ("createdAt", .str "t")]) (by simp [listSet]) rfl).1
  · exact (((C8_supplied_id "u" "t" "\x7b\"id\":\" k \"\x7d" [("id", .str " k ")]
      (fun _ => .ok ()) (.str " k ") rfl rfl (fun h => JsVal.noConfusion h)).2 " k " rfl (by decide)).1
      (.obj [("id", .str " k "), ("createdAt", .str "t")]) (by simp [listSet]) rfl).2

/-- C10: a body parsing to a non-empty JSON array passes body validation —
its own keys are the array indices, so the zero-own-keys check does not
reject it — and the create path treats it like an object: `id` and
`createdAt` are assigned as own properties, and when the put succeeds the
response is status 201 with the augmented array as the body (note that
`JSON.stringify` serializes an array by its index elements only, so the
two added properties do not appear in the serialized body text). -/
theorem C10_array_body (uuid now : String) (s : String) (elems : List JsVal)
    (put : JsVal → Except JsVal Unit)
    (hp : jsonParse s = some (.arr elems [])) (hne : elems ≠ []) :
    validateRequestBody (some s) =
      .ok { isValid := true, error := none, data := some (.arr elems []) } ∧
    ((JsVal.arr elems [("id", .str uuid), ("createdAt", .str now)]).getProp "id" = .str uuid ∧
     (JsVal.arr elems [("id", .str uuid), ("createdAt", .str now)]).getProp "createdAt" =
       .str now) ∧
    (put (.arr elems [("id", .str uuid), ("createdAt", .str now)]) = .ok () →
      createItem uuid now put (some s) =
        .ok (createSuccessResponse HTTP_STATUS.CREATED
          (.arr elems [("id", .str uuid), ("createdAt", .str now)]))) := by
  have hs : s ≠ "" := by
    rintro rfl
    rw [show jsonParse "" = none from rfl] at hp
    exact Option.noConfusion hp
  have hval : validateRequestBody (some s) =
      .ok { isValid := true, error := none, data := some (.arr elems []) } := by
    simp [validateRequestBody, hs, hp, JsVal.objectKeys, List.length_eq_zero, hne]
  refine ⟨hval, ⟨?_, ?_⟩, ?_⟩
  · simp [JsVal.getProp, lookupField]
  · simp [JsVal.getProp, lookupField]
  · intro hput
    simp [createItem, hval, JsVal.getProp, lookupField, JsVal.setProp, listSet, hput]

/-- C10 witness: the body "[1,2]" is accepted, augmented, stored, and
answered with 201; its serialized response body is "[1,2]". -/
theorem C10_array_body_witness :
    validateRequestBody (some "[1,2]") =
      .ok { isValid := true, error := none,
            data := some (.arr [.num "1", .num "2"] []) } ∧
    createItem "u" "t" (fun _ => .ok ()) (some "[1,2]") =
      .ok (createSuccessResponse HTTP_STATUS.CREATED
        (.arr [.num "1", .num "2"] [("id", .str "u"), ("createdAt", .str "t")])) ∧
    (createSuccessResponse HTTP_STATUS.CREATED
        (.arr [.num "1", .num "2"] [("id", .str "u"), ("createdAt", .str "t")])).body =
      "[1,2]" := by
  have h := C10_array_body "u" "t" "[1,2]" [.num "1", .num "2"] (fun _ => .ok ())
    rfl (by simp)
  exact ⟨h.1, h.2.2 rfl, rfl⟩

/-- Helper: every outcome of the create path is a 400 error response, the
503 unavailability response, a 201 success, or a re-thrown exception. -/
theorem createItem_shape (uuid now : String) (put : JsVal → Except JsVal Unit)
    (rawBody : Option String) :
    (∃ m, createItem uuid now put rawBody =
      .ok (createErrorResponse now HTTP_STATUS.BAD_REQUEST m))
  ∨ (createItem uuid now put rawBody =
      .ok (createErrorResponse now HTTP_STATUS.SERVICE_UNAVAILABLE
        "Database service unavailable"))
  ∨ (∃ d, createItem uuid now put rawBody =
      .ok (createSuccessResponse HTTP_STATUS.CREATED d))
  ∨ (∃ e, createItem uuid now put rawBody = .error e) := by
  have hfin : ∀ X : JsVal,
      createItem uuid now put rawBody =
        (match (match put X with
                | .error e => (Except.error e : Except JsVal APIGatewayProxyResult)
                | .ok _ => .ok (createSuccessResponse HTTP_STATUS.CREATED X)) with
         | .ok r => .ok r
         | .error err =>
           if isDynamoDBError err then
             .ok (createErrorResponse now HTTP_STATUS.SERVICE_UNAVAILABLE
               "Database service unavailable")
           else .error err) →
      ((∃ m, createItem uuid now put rawBody =
        .ok (createErrorResponse now HTTP_STATUS.BAD_REQUEST m))
      ∨ (createItem uuid now put rawBody =
        .ok (createErrorResponse now HTTP_STATUS.SERVICE_UNAVAILABLE
          "Database service unavailable"))
      ∨ (∃ d, createItem uuid now put rawBody =
        .ok (createSuccessResponse HTTP_STATUS.CREATED d))
      ∨ (∃ e, createItem uuid now put rawBody = .error e)) := by
    intro X hX
    rcases hput : put X with e | u
    · simp only [hput] at hX
      by_cases hc : isDynamoDBError e
      · rw [if_pos hc] at hX
        exact Or.inr (Or.inl hX)
      · rw [if_neg hc] at hX
        exact Or.inr (Or.inr (Or.inr ⟨e, hX⟩))
    · simp only [hput] at hX
      exact Or.inr (Or.inr (Or.inl ⟨X, hX⟩))
  rcases hv : validateRequestBody rawBody with e | val
  · by_cases hc : isDynamoDBError e
    · exact Or.inr (Or.inl (by simp [createItem, hv, hc]))
    · exact Or.inr (Or.inr (Or.inr ⟨e, by simp [createItem, hv, hc]⟩))
  · obtain ⟨iv, err, data⟩ := val
    cases iv with
    | false => exact Or.inl ⟨err.getD "", by simp [createItem, hv]⟩
    | true =>
      rcases data with _ | v
      · exact Or.inr (Or.inr (Or.inr
          ⟨.obj [("name", .str "TypeError"), ("message", .str "Cannot create property id")], by
          simp [createItem, hv, JsVal.getProp, JsVal.setProp, isDynamoDBError,
            typeError, lookupField, dynamoDBErrors]⟩))
      · cases v with
        | undefined => exact Or.inr (Or.inr (Or.inr
            ⟨.obj [("name", .str "TypeError"), ("message", .str "Cannot create property id")], by
            simp [createItem, hv, JsVal.getProp, JsVal.setProp, isDynamoDBError,
              typeError, lookupField, dynamoDBErrors]⟩))
        | null => exact Or.inr (Or.inr (Or.inr
            ⟨.obj [("name", .str "TypeError"), ("message", .str "Cannot create property id")], by
            simp [createItem, hv, JsVal.getProp, JsVal.setProp, isDynamoDBError,
              typeError, lookupField, dynamoDBErrors]⟩))
        | bool b => exact Or.inr (Or.inr (Or.inr
            ⟨.obj [("name", .str "TypeError"), ("message", .str "Cannot create property id")], by
            simp [createItem, hv, JsVal.getProp, JsVal.setProp, isDynamoDBError,
              typeError, lookupField, dynamoDBErrors]⟩))
        | num lit => exact Or.inr (Or.inr (Or.inr
            ⟨.obj [("name", .str "TypeError"), ("message", .str "Cannot create property id")], by
            simp [createItem, hv, JsVal.getProp, JsVal.setProp, isDynamoDBError,
              typeError, lookupField, dynamoDBErrors]⟩))
        | str t => exact Or.inr (Or.inr (Or.inr
            ⟨.obj [("name", .str "TypeError"), ("message", .str "Cannot create property id")], by
            simp [createItem, hv, JsVal.getProp, JsVal.setProp, isDynamoDBError,
              typeError, lookupField, dynamoDBErrors]⟩))
        | arr es ps =>
          rcases hl : lookupField ps "id" with _ | idv
          · exact hfin (.arr es (listSet (listSet ps "id" (.str uuid)) "createdAt" (.str now)))
              (by simp [createItem, hv, JsVal.getProp, hl, JsVal.setProp])
          · cases idv with
            | undefined =>
              exact hfin (.arr es (listSet (listSet ps "id" (.str uuid)) "createdAt" (.str now)))
                (by simp [createItem, hv, JsVal.getProp, hl, JsVal.setProp])
            | str t =>
              by_cases ht : jsTrim t = ""
              · exact Or.inl ⟨"ID must be a non-empty string",
                  by simp [createItem, hv, JsVal.getProp, hl, ht]⟩
              · exact hfin (.arr es (listSet ps "createdAt" (.str now)))
                  (by simp [createItem, hv, JsVal.getProp, hl, ht, JsVal.setProp])
            | null => exact Or.inl ⟨"ID must be a non-empty string",
                by simp [createItem, hv, JsVal.getProp, hl]⟩
            | bool b => exact Or.inl ⟨"ID must be a non-empty string",
                by simp [createItem, hv, JsVal.getProp, hl]⟩
            | num lit => exact Or.inl ⟨"ID must be a non-empty string",
                by simp [createItem, hv, JsVal.getProp, hl]⟩
            | arr es2 ps2 => exact Or.inl ⟨"ID must be a non-empty string",
                by simp [createItem, hv, JsVal.getProp, hl]⟩
            | obj fs2 => exact Or.inl ⟨"ID must be a non-empty string",
                by simp [createItem, hv, JsVal.getProp, hl]⟩
        | obj fs =>
          rcases hl : lookupField fs "id" with _ | idv
          · exact hfin (.obj (listSet (listSet fs "id" (.str uuid)) "createdAt" (.str now)))
              (by simp [createItem, hv, JsVal.getProp, hl, JsVal.setProp])
          · cases idv with
            | undefined =>
              exact hfin (.obj (listSet (listSet fs "id" (.str uuid)) "createdAt" (.str now)))
                (by simp [createItem, hv, JsVal.getProp, hl, JsVal.setProp])
            | str t =>
              by_cases ht : jsTrim t = ""
              · exact Or.inl ⟨"ID must be a non-empty string",
                  by simp [createItem, hv, JsVal.getProp, hl, ht]⟩
              · exact hfin (.obj (listSet fs "createdAt" (.str now)))
                  (by simp [createItem, hv, JsVal.getProp, hl, ht, JsVal.setProp])
            | null => exact Or.inl ⟨"ID must be a non-empty string",
                by simp [createItem, hv, JsVal.getProp, hl]⟩
            | bool b => exact Or.inl ⟨"ID must be a non-empty string",
                by simp [createItem, hv, JsVal.getProp, hl]⟩
            | num lit => exact Or.inl ⟨"ID must be a non-empty string",
                by simp [createItem, hv, JsVal.getProp, hl]⟩
            | arr es2 ps2 => exact Or.inl ⟨"ID must be a non-empty string",
                by simp [createItem, hv, JsVal.getProp, hl]⟩
            | obj fs2 => exact Or.inl ⟨"ID must be a non-empty string",
                by simp [createItem, hv, JsVal.getProp, hl]⟩

/-- Helper: every outcome of the fetch path is a 400 error response, the
404 response, the 503 unavailability response, a 200 success, or a
re-thrown exception. -/
theorem getItem_shape (now : String) (get : String → Except JsVal (Option JsVal))
    (pp : Option (List (String × String))) :
    (∃ m, getItem now get pp = .ok (createErrorResponse now HTTP_STATUS.BAD_REQUEST m))
  ∨ (getItem now get pp = .ok (createErrorResponse now HTTP_STATUS.NOT_FOUND "Item not found"))
  ∨ (getItem now get pp =
      .ok (createErrorResponse now HTTP_STATUS.SERVICE_UNAVAILABLE
        "Database service unavailable"))
  ∨ (∃ d, getItem now get pp = .ok (createSuccessResponse HTTP_STATUS.OK d))
  ∨ (∃ e, getItem now get pp = .error e) := by
  rcases pp with _ | ps
  · exact Or.inl ⟨"Path parameters are required", by simp [getItem]⟩
  · rcases hl : lookupParam ps "id" with _ | id
    · exact Or.inl ⟨"ID parameter is required", by simp [getItem, hl]⟩
    · by_cases htrim : jsTrim id = ""
      · exact Or.inl ⟨"ID parameter is required", by simp [getItem, hl, htrim]⟩
      · have hne : id ≠ "" := by
          rintro rfl
          exact htrim rfl
        by_cases hlen : jsLength id > MAX_ID_LENGTH
        · exact Or.inl ⟨"ID parameter is too long",
            by simp [getItem, hl, hne, htrim, hlen]⟩
        · have hvalid := getItem_valid_id now get ps id hl htrim (Nat.not_lt.mp hlen)
          rcases hget : get id with e | o
          · by_cases hc : isDynamoDBError e
            · exact Or.inr (Or.inr (Or.inl (by rw [hvalid, hget]; simp [hc])))
            · exact Or.inr (Or.inr (Or.inr (Or.inr ⟨e, by rw [hvalid, hget]; simp [hc]⟩)))
          · rcases o with _ | item
            · exact Or.inr (Or.inl (by rw [hvalid, hget]))
            · exact Or.inr (Or.inr (Or.inr (Or.inl ⟨item, by rw [hvalid, hget]⟩)))

/-- C9: every failure response produced by the handler has status 400, 404,
405, 500 or 503, and its body serializes an object carrying the error
message, a statusCode field equal to the response's HTTP status code, and a
timestamp field holding the instant generated at response-construction
time. -/
theorem C9_failure_body_shape (uuid now : String) (put : JsVal → Except JsVal Unit)
    (get : String → Except JsVal (Option JsVal)) (event : APIGatewayProxyEvent)
    (h200 : (lambdaHandler uuid now put get event).statusCode ≠ HTTP_STATUS.OK)
    (h201 : (lambdaHandler uuid now put get event).statusCode ≠ HTTP_STATUS.CREATED) :
    (lambdaHandler uuid now put get event).statusCode ∈
      [HTTP_STATUS.BAD_REQUEST, HTTP_STATUS.NOT_FOUND, HTTP_STATUS.METHOD_NOT_ALLOWED,
       HTTP_STATUS.INTERNAL_SERVER_ERROR, HTTP_STATUS.SERVICE_UNAVAILABLE] ∧
    ∃ msg, lambdaHandler uuid now put get event =
        createErrorResponse now (lambdaHandler uuid now put get event).statusCode msg ∧
      (lambdaHandler uuid now put get event).body =
        (JsVal.obj [("error", .str msg),
          ("statusCode", .num (toString (lambdaHandler uuid now put get event).statusCode)),
          ("timestamp", .str now)]).stringify := by
  have main :
      (∃ m st, lambdaHandler uuid now put get event = createErrorResponse now st m ∧
        st ∈ [HTTP_STATUS.BAD_REQUEST, HTTP_STATUS.NOT_FOUND, HTTP_STATUS.METHOD_NOT_ALLOWED,
              HTTP_STATUS.INTERNAL_SERVER_ERROR, HTTP_STATUS.SERVICE_UNAVAILABLE])
    ∨ (∃ d st, lambdaHandler uuid now put get event = createSuccessResponse st d ∧
        (st = HTTP_STATUS.OK ∨ st = HTTP_STATUS.CREATED)) := by
    by_cases hm : event.httpMethod = "POST"
    · rcases createItem_shape uuid now put event.body with ⟨m, h⟩ | h | ⟨d, h⟩ | ⟨e, h⟩
      · exact Or.inl ⟨m, HTTP_STATUS.BAD_REQUEST, by simp [lambdaHandler, hm, h], by simp⟩
      · exact Or.inl ⟨"Database service unavailable", HTTP_STATUS.SERVICE_UNAVAILABLE,
          by simp [lambdaHandler, hm, h], by simp⟩
      · exact Or.inr ⟨d, HTTP_STATUS.CREATED, by simp [lambdaHandler, hm, h], Or.inr rfl⟩
      · exact Or.inl ⟨"Internal server error", HTTP_STATUS.INTERNAL_SERVER_ERROR,
          by simp [lambdaHandler, hm, h], by simp⟩
    · by_cases hg : event.httpMethod = "GET"
      · rcases getItem_shape now get event.pathParameters with
          ⟨m, h⟩ | h | h | ⟨d, h⟩ | ⟨e, h⟩
        · exact Or.inl ⟨m, HTTP_STATUS.BAD_REQUEST, by simp [lambdaHandler, hm, hg, h], by simp⟩
        · exact Or.inl ⟨"Item not found", HTTP_STATUS.NOT_FOUND,
            by simp [lambdaHandler, hm, hg, h], by simp⟩
        · exact Or.inl ⟨"Database service unavailable", HTTP_STATUS.SERVICE_UNAVAILABLE,
            by simp [lambdaHandler, hm, hg, h], by simp⟩
        · exact Or.inr ⟨d, HTTP_STATUS.OK, by simp [lambdaHandler, hm, hg, h], Or.inl rfl⟩
        · exact Or.inl ⟨"Internal server error", HTTP_STATUS.INTERNAL_SERVER_ERROR,
            by simp [lambdaHandler, hm, hg, h], by simp⟩
      · exact Or.inl ⟨"Method not allowed", HTTP_STATUS.METHOD_NOT_ALLOWED,
          by simp [lambdaHandler, hm, hg], by simp⟩
  rcases main with ⟨m, st, heq, hst⟩ | ⟨d, st, heq, hst⟩
  · have hsc : (lambdaHandler uuid now put get event).statusCode = st := by
      rw [heq]
      rfl
    rw [hsc]
    exact ⟨hst, m, by rw [heq], by rw [heq]; rfl⟩
  · have hsc : (lambdaHandler uuid now put get event).statusCode = st := by
      rw [heq]
      rfl
    rcases hst with rfl | rfl
    · exact absurd hsc h200
    · exact absurd hsc h201

/-- C9 witness: a PATCH request, whose response is the 405 failure, carries
the error/statusCode/timestamp body shape. -/
theorem C9_failure_body_shape_witness :
    (lambdaHandler "u" "t" (fun _ => .ok ()) (fun _ => .ok none)
      { httpMethod := "PATCH", body := none, pathParameters := none }).statusCode ∈
      [HTTP_STATUS.BAD_REQUEST, HTTP_STATUS.NOT_FOUND, HTTP_STATUS.METHOD_NOT_ALLOWED,
       HTTP_STATUS.INTERNAL_SERVER_ERROR, HTTP_STATUS.SERVICE_UNAVAILABLE] ∧
    ∃ msg, lambdaHandler "u" "t" (fun _ => .ok ()) (fun _ => .ok none)
        { httpMethod := "PATCH", body := none, pathParameters := none } =
        createErrorResponse "t"
          (lambdaHandler "u" "t" (fun _ => .ok ()) (fun _ => .ok none)
            { httpMethod := "PATCH", body := none, pathParameters := none }).statusCode msg ∧
      (lambdaHandler "u" "t" (fun _ => .ok ()) (fun _ => .ok none)
        { httpMethod := "PATCH", body := none, pathParameters := none }).body =
        (JsVal.obj [("error", .str msg),
          ("statusCode", .num (toString
            (lambdaHandler "u" "t" (fun _ => .ok ()) (fun _ => .ok none)
              { httpMethod := "PATCH", body := none, pathParameters := none }).statusCode)),
          ("timestamp", .str "t")]).stringify :=
  C9_failure_body_shape "u" "t" (fun _ => .ok ()) (fun _ => .ok none)
    { httpMethod := "PATCH", body := none, pathParameters := none }
    (by decide) (by decide)

end ItemsApi
